import Mathlib

/-!
Verification of the Naisu cross-chain intent system core:
the CCTP bridge client (naisu-bridge/src/wormhole.rs), the intent
orchestrator (naisu-agent/src/orchestrator.rs), the poll-mode event
listener (naisu-evm/src/listener.rs) and the yield-strategy codec
(naisu-core/src/strategy.rs), shallowly embedded in Lean.

Machine integers (u8, u32, u64) are embedded as Nat; where a width
matters (u64 string parsing) the bound 2 ^ 64 is explicit.  Fallible
operations return Except; HTTP traffic is embedded as an explicit
environment function from request to response.
-/

namespace Naisu

/-! ## CCTP domain registry and contract constants (wormhole.rs) -/

def CCTP_DOMAIN_ETHEREUM : Nat := 0

def CCTP_DOMAIN_AVALANCHE : Nat := 1

def CCTP_DOMAIN_OPTIMISM : Nat := 2

def CCTP_DOMAIN_ARBITRUM : Nat := 3

def CCTP_DOMAIN_BASE : Nat := 5

def CCTP_DOMAIN_SUI : Nat := 10

/-- USDC on Base Sepolia. -/
def USDC_BASE_SEPOLIA : String := "0x036CbD53842c5426634e7929541eC2318f3dCF7e"

/-- TokenMessenger on Base Sepolia (depositForBurn is called here). -/
def TOKEN_MESSENGER_BASE_SEPOLIA : String := "0x9a4427fd4196d315517ed71ddd16BD053cC9c4a4"

/-- MessageTransmitter on Base Sepolia (receiveMessage is called here). -/
def MESSAGE_TRANSMITTER_BASE_SEPOLIA : String := "0x241661E680D1F25deb4cE5230b2D7165B3ba580e"

def ATTESTATION_TESTNET_URL : String := "https://iris-api-sandbox.circle.com/v1"

def ATTESTATION_MAINNET_URL : String := "https://attestation.circle.com/v1"

/-! ## Yield strategies (naisu-core/src/strategy.rs) -/

/-- Available yield strategies on Sui.  The Custom payload is a u8,
embedded as Nat. -/
inductive YieldStrategy where
  | ScallopUsdc
  | ScallopSui
  | NaviUsdc
  | NaviSui
  | Custom (id : Nat)
  deriving Repr, DecidableEq

/-- Strategy ID for on-chain encoding (YieldStrategy::id). -/
def YieldStrategy.id : YieldStrategy → Nat
  | .ScallopUsdc => 1
  | .ScallopSui => 2
  | .NaviUsdc => 3
  | .NaviSui => 4
  | .Custom i => i

/-- Strategy from ID (YieldStrategy::from_id); the Rust match on
1, 2, 3, 4, wildcard is embedded as a conditional chain. -/
def YieldStrategy.from_id (id : Nat) : YieldStrategy :=
  if id = 1 then .ScallopUsdc
  else if id = 2 then .ScallopSui
  else if id = 3 then .NaviUsdc
  else if id = 4 then .NaviSui
  else .Custom id

/-! ## Rust u64 string parsing

Embedding of str::parse::<u64>(): an optional leading plus sign, then
one or more ASCII digits, value below 2 ^ 64; anything else fails. -/

def parseU64 (s : String) : Option Nat :=
  let ds : List Char :=
    match s.data with
    | '+' :: rest => rest
    | cs => cs
  if ds.isEmpty then none
  else if ds.all Char.isDigit then
    let v := ds.foldl (fun a c => a * 10 + (c.toNat - 48)) 0
    if v < 2 ^ 64 then some v else none
  else none

/-! ## CCTP client (wormhole.rs) -/

/-- Circle CCTP client state.  The reqwest HTTP handle carries no
observable state and is dropped from the embedding; HTTP traffic is
passed explicitly to the operations that perform it. -/
structure CctpClient where
  attestation_url : String
  testnet : Bool
  deriving Repr, DecidableEq

/-- CctpClient::testnet. -/
def CctpClient.testnetClient : CctpClient :=
  { attestation_url := ATTESTATION_TESTNET_URL, testnet := true }

/-- CctpClient::mainnet. -/
def CctpClient.mainnetClient : CctpClient :=
  { attestation_url := ATTESTATION_MAINNET_URL, testnet := false }

/-- Parameters for depositForBurn, passed to the frontend for signing.
amount is a u64, destination_domain a u32, both embedded as Nat. -/
structure DepositForBurnParams where
  token_messenger : String
  usdc_address : String
  amount : Nat
  destination_domain : Nat
  destination_address : String
  deriving Repr, DecidableEq

/-- CctpClient::build_deposit_for_burn_params.  Both branches of the
testnet conditional name TOKEN_MESSENGER_BASE_SEPOLIA, as in the source
(the mainnet branch carries a TODO to swap in a mainnet address). -/
def CctpClient.build_deposit_for_burn_params (c : CctpClient)
    (amount : Nat) (dest_domain : Nat) (dest_address : String) :
    DepositForBurnParams :=
  let token_messenger :=
    if c.testnet then TOKEN_MESSENGER_BASE_SEPOLIA
    else TOKEN_MESSENGER_BASE_SEPOLIA
  { token_messenger := token_messenger
    usdc_address := USDC_BASE_SEPOLIA
    amount := amount
    destination_domain := dest_domain
    destination_address := dest_address }

/-- Completed attestation from Circle. -/
structure CctpAttestation where
  message : String
  attestation_signature : String
  deriving Repr, DecidableEq

/-- Payload of the attestation API response. -/
structure AttestationData where
  message : String
  attestation_signature : String
  status : String
  deriving Repr, DecidableEq

/-- Body of a successful attestation API response. -/
structure AttestationApiResponse where
  data : Option AttestationData
  deriving Repr, DecidableEq

/-- CCTP client errors. -/
inductive CctpError where
  | Request (msg : String)
  | Api (status : Nat) (message : String)
  | Parse (msg : String)
  | AttestationTimeout
  deriving Repr, DecidableEq

/-- An HTTP response as the client observes it: numeric status code,
raw body text, and the result of deserializing the body as an
AttestationApiResponse. -/
structure HttpResponse where
  status_code : Nat
  body_text : String
  body_json : Except String AttestationApiResponse
  deriving Repr

/-- reqwest StatusCode::is_success(): 2xx. -/
def isSuccessStatus (code : Nat) : Bool :=
  200 ≤ code && code < 300

/-- CctpClient::get_attestation.  The HTTP environment maps a URL to
either a transport failure or a response. -/
def CctpClient.get_attestation (c : CctpClient)
    (http : String → Except String HttpResponse) (nonce : String) :
    Except CctpError (Option CctpAttestation) :=
  let url := c.attestation_url ++ "/attestations/" ++ nonce
  match http url with
  | .error e => .error (.Request e)
  | .ok response =>
    if response.status_code = 404 then .ok none
    else if !isSuccessStatus response.status_code then
      .error (.Api response.status_code response.body_text)
    else
      match response.body_json with
      | .error e => .error (.Parse e)
      | .ok resp =>
        match resp.data with
        | some d =>
          if d.status = "complete" then
            .ok (some { message := d.message,
                        attestation_signature := d.attestation_signature })
          else .ok none
        | none => .ok none

/-- Observable timing events of CctpClient::poll_attestation: an
attestation lookup (one get_attestation round trip) or a sleep of the
given number of seconds. -/
inductive PollEvent where
  | lookup (nonce : String)
  | sleep (secs : Nat)
  deriving Repr, DecidableEq

def PollEvent.isLookup : PollEvent → Bool
  | .lookup _ => true
  | .sleep _ => false

def PollEvent.isSleep : PollEvent → Bool
  | .lookup _ => false
  | .sleep _ => true

/-- The loop body of CctpClient::poll_attestation: n attempts remain
and k attempts have already been made.  The HTTP environment is indexed
by the attempt number, so successive lookups of the same nonce may see
different service states.  Each iteration performs a lookup; a hard
error or a ready attestation returns at once, an empty result sleeps
for the interval and continues. -/
def CctpClient.pollEvents (c : CctpClient)
    (http : Nat → String → Except String HttpResponse)
    (nonce : String) (interval_secs : Nat) :
    Nat → Nat → Except CctpError CctpAttestation × List PollEvent
  | 0, _ => (.error .AttestationTimeout, [])
  | n + 1, k =>
    match c.get_attestation (http k) nonce with
    | .error e => (.error e, [.lookup nonce])
    | .ok (some a) => (.ok a, [.lookup nonce])
    | .ok none =>
      let r := c.pollEvents http nonce interval_secs n (k + 1)
      (r.1, .lookup nonce :: .sleep interval_secs :: r.2)

/-- CctpClient::poll_attestation, returning the result together with
the trace of lookups and sleeps it performed. -/
def CctpClient.poll_attestation (c : CctpClient)
    (http : Nat → String → Except String HttpResponse)
    (nonce : String) (max_attempts : Nat) (interval_secs : Nat) :
    Except CctpError CctpAttestation × List PollEvent :=
  c.pollEvents http nonce interval_secs max_attempts 0

/-! ## Intent domain model

The crate naisu-core declares a module intent whose source file is not
in the tree; the types below (IntentStatus, Direction, Intent,
IntentCreatedEvent and the Intent operations) are therefore modelled
from the spec rather than translated from Rust. -/

/-- Modelled from the spec: the intent lifecycle states of section 4.3
(naisu-core intent.rs is absent from the tree). -/
inductive IntentStatus where
  | Pending
  | SwapCompleted
  | Bridging
  | BridgeCompleted
  | Deposited
  | Completed
  | Failed
  | Cancelled
  deriving Repr, DecidableEq

/-- Completed, Failed and Cancelled are the terminal states. -/
def IntentStatus.isTerminal : IntentStatus → Bool
  | .Completed => true
  | .Failed => true
  | .Cancelled => true
  | _ => false

/-- The forward-only transition table of spec section 4.3. -/
def validTransition : IntentStatus → IntentStatus → Bool
  | .Pending, .SwapCompleted => true
  | .Pending, .Bridging => true
  | .SwapCompleted, .Bridging => true
  | .Bridging, .BridgeCompleted => true
  | .BridgeCompleted, .Deposited => true
  | .BridgeCompleted, .Completed => true
  | .Deposited, .Completed => true
  | s, .Failed => !s.isTerminal
  | s, .Cancelled => !s.isTerminal
  | _, _ => false

/-- A status path every consecutive step of which is in the transition
table.  A path is a prefix of a valid walk of the table exactly when it
is itself valid in this sense. -/
def validPath : List IntentStatus → Bool
  | [] => true
  | [_] => true
  | a :: b :: rest => validTransition a b && validPath (b :: rest)

/-- Modelled from the spec: intent direction (naisu-core intent.rs is
absent from the tree). -/
inductive Direction where
  | EvmToSui
  | SuiToEvm
  deriving Repr, DecidableEq

/-- Supported EVM chains (naisu-core/src/chain.rs). -/
inductive EvmChain where
  | Ethereum
  | Base
  | Arbitrum
  | Optimism
  | BaseSepolia
  | Sepolia
  deriving Repr, DecidableEq

/-- EvmChain::is_testnet. -/
def EvmChain.is_testnet : EvmChain → Bool
  | .BaseSepolia => true
  | .Sepolia => true
  | _ => false

/-- Modelled from the spec: the Intent record of spec section 3
(naisu-core intent.rs is absent from the tree).  The created_at unix
timestamp is an Int. -/
structure Intent where
  id : String
  direction : Direction
  status : IntentStatus
  source_address : String
  dest_address : String
  evm_chain : EvmChain
  input_token : String
  input_amount : String
  usdc_amount : Option String
  strategy : Option YieldStrategy
  bridge_nonce : Option String
  swap_tx_hash : Option String
  bridge_tx_hash : Option String
  dest_tx_hash : Option String
  error_message : Option String
  created_at : Int
  deriving Repr, DecidableEq

/-- Modelled from the spec: the explicit set-status operation by which
the orchestrator mutates an intent's status (naisu-core intent.rs is
absent from the tree).  It assigns the given status; the transition
discipline of section 4.3 is the caller's responsibility. -/
def Intent.set_status (i : Intent) (s : IntentStatus) : Intent :=
  { i with status := s }

/-- Modelled from the spec: Intent::new_evm_to_sui as called by the
orchestrator — a fresh Pending intent with direction EvmToSui, the
event's user as source and its Sui destination as dest_address, and
every optional field unset (naisu-core intent.rs is absent from the
tree).  The creation timestamp is passed explicitly. -/
def Intent.new_evm_to_sui (id user sui_destination : String)
    (chain : EvmChain) (input_token input_amount : String)
    (strategy : YieldStrategy) (now : Int) : Intent :=
  { id := id
    direction := .EvmToSui
    status := .Pending
    source_address := user
    dest_address := sui_destination
    evm_chain := chain
    input_token := input_token
    input_amount := input_amount
    usdc_amount := none
    strategy := some strategy
    bridge_nonce := none
    swap_tx_hash := none
    bridge_tx_hash := none
    dest_tx_hash := none
    error_message := none
    created_at := now }

/-- Modelled from the spec: the canonical decoded IntentCreated event
of spec section 6 (naisu-core intent.rs is absent from the tree).
strategy_id is a u8 embedded as Nat, timestamp unix seconds as Nat. -/
structure IntentCreatedEvent where
  intent_id : String
  user : String
  sui_destination : String
  input_token : String
  input_amount : String
  usdc_amount : String
  strategy_id : Nat
  timestamp : Nat
  deriving Repr, DecidableEq

/-! ## Intent orchestrator (naisu-agent/src/orchestrator.rs) -/

/-- Orchestrator errors.  The Cctp and Sui variants wrap the wrapped
error (Sui errors are reduced to their message, the Sui client being
outside the verified core). -/
inductive OrchestratorError where
  | Cctp (e : CctpError)
  | Sui (msg : String)
  | InvalidAmount (amount : String)
  | BridgeFailed (msg : String)
  | Timeout
  deriving Repr, DecidableEq

/-- Observable actions of one orchestrator run: a status assignment on
the intent, a depositForBurn parameter build on the CCTP client, or an
attestation poll on the CCTP client. -/
inductive OrchEvent where
  | statusSet (s : IntentStatus)
  | builtDepositForBurn (p : DepositForBurnParams)
  | polledAttestation (nonce : String)
  deriving Repr, DecidableEq

/-- The statuses assigned during a run, in order. -/
def statusesOf (trace : List OrchEvent) : List IntentStatus :=
  trace.filterMap fun e =>
    match e with
    | .statusSet s => some s
    | _ => none

def OrchEvent.isPolledAttestation : OrchEvent → Bool
  | .polledAttestation _ => true
  | _ => false

/-- IntentOrchestrator state: the configured source chain and the CCTP
client chosen from it.  The Sui client is unused by both processing
operations and is dropped from the embedding. -/
structure IntentOrchestrator where
  evm_chain : EvmChain
  cctp : CctpClient
  deriving Repr, DecidableEq

/-- IntentOrchestrator::new: the CCTP client is testnet or mainnet
according to the configured chain. -/
def IntentOrchestrator.new (chain : EvmChain) : IntentOrchestrator :=
  { evm_chain := chain
    cctp := if chain.is_testnet then CctpClient.testnetClient
            else CctpClient.mainnetClient }

/-- IntentOrchestrator::process_evm_to_sui, returning the result
together with the trace of observable actions.  The attestation poll
and receive-message build of the real flow are commented out in the
source (MVP simulation); accordingly no polledAttestation event is
emitted and BridgeCompleted is set directly after Bridging. -/
def IntentOrchestrator.process_evm_to_sui (o : IntentOrchestrator)
    (event : IntentCreatedEvent) (now : Int) :
    Except OrchestratorError Intent × List OrchEvent :=
  let strategy := YieldStrategy.from_id event.strategy_id
  let intent0 := Intent.new_evm_to_sui event.intent_id event.user
    event.sui_destination o.evm_chain event.input_token
    event.input_amount strategy now
  let intent1 := { intent0 with usdc_amount := some event.usdc_amount }
  let intent2 := intent1.set_status .SwapCompleted
  let tr0 : List OrchEvent := [.statusSet .SwapCompleted]
  match parseU64 event.usdc_amount with
  | none => (.error (.InvalidAmount event.usdc_amount), tr0)
  | some usdc_amount =>
    let deposit_params := o.cctp.build_deposit_for_burn_params
      usdc_amount CCTP_DOMAIN_SUI intent2.dest_address
    let tr1 := tr0 ++ [.builtDepositForBurn deposit_params]
    let mock_nonce := "mock_nonce_" ++ intent2.id
    let intent3 := { intent2 with bridge_nonce := some mock_nonce }
    let intent4 := intent3.set_status .Bridging
    let tr2 := tr1 ++ [.statusSet .Bridging]
    let intent5 := intent4.set_status .BridgeCompleted
    let tr3 := tr2 ++ [.statusSet .BridgeCompleted]
    let intent6 := intent5.set_status .Deposited
    let tr4 := tr3 ++ [.statusSet .Deposited]
    let intent7 := intent6.set_status .Completed
    let tr5 := tr4 ++ [.statusSet .Completed]
    (.ok intent7, tr5)

/-- IntentOrchestrator::process_sui_to_evm, returning the result, the
mutated intent (the Rust function takes it by mutable reference) and
the trace of observable actions.  As in process_evm_to_sui, the
attestation poll of the real flow is commented out in the source. -/
def IntentOrchestrator.process_sui_to_evm (o : IntentOrchestrator)
    (intent : Intent) :
    Except OrchestratorError Unit × Intent × List OrchEvent :=
  let usdc_amount := (intent.usdc_amount.bind parseU64).getD 0
  if usdc_amount = 0 then
    (.error (.InvalidAmount "0"), intent, [])
  else
    let deposit_params := o.cctp.build_deposit_for_burn_params
      usdc_amount CCTP_DOMAIN_BASE intent.dest_address
    let mock_nonce := "mock_nonce_" ++ intent.id
    let intent1 := { intent with bridge_nonce := some mock_nonce }
    let intent2 := intent1.set_status .Bridging
    let intent3 := intent2.set_status .BridgeCompleted
    let intent4 := intent3.set_status .Completed
    (.ok (), intent4,
      [.builtDepositForBurn deposit_params, .statusSet .Bridging,
       .statusSet .BridgeCompleted, .statusSet .Completed])

/-! ## Poll-mode event listener (naisu-evm/src/listener.rs) -/

/-- Outcome of one iteration of the run_polling_listener loop: either
the loop continues with the given last_block, or the listener returns
because the delivery channel closed. -/
inductive TickOutcome where
  | advanced (last_block : Nat)
  | stopped
  deriving Repr, DecidableEq

/-- Observable behavior of one poll tick: outcome, the issued log
queries as inclusive (from_block, to_block) ranges, and the events
delivered to the channel. -/
structure TickResult where
  outcome : TickOutcome
  queries : List (Nat × Nat)
  sent : List IntentCreatedEvent
  deriving Repr, DecidableEq

/-- The log delivery loop: each raw log is a parse result (none when
parse_intent_created_log failed, which is skipped); a parsed event is
sent to the channel, and a failed send returns from the listener.  The
channel is modelled as open or closed for the whole tick.  Returns the
delivered events, or none when the listener returned mid-scan. -/
def deliverLogs (channelOpen : Bool) :
    List (Option IntentCreatedEvent) → Option (List IntentCreatedEvent)
  | [] => some []
  | none :: rest => deliverLogs channelOpen rest
  | some ev :: rest =>
    if channelOpen then
      (deliverLogs channelOpen rest).map fun tail => ev :: tail
    else none

/-- One iteration of the run_polling_listener loop after the sleep and
the current-block fetch: when current_block exceeds last_block, one
get_logs query over blocks last_block + 1 through current_block is
issued and last_block advances to current_block whether the query
errored or returned any list of logs; otherwise nothing happens.  The
get_logs environment maps an inclusive block range to a query
failure or a list of pre-parsed logs. -/
def pollTick
    (get_logs : Nat → Nat → Except String (List (Option IntentCreatedEvent)))
    (channelOpen : Bool) (last_block current_block : Nat) : TickResult :=
  if current_block > last_block then
    let fromBlock := last_block + 1
    let toBlock := current_block
    match get_logs fromBlock toBlock with
    | .ok logs =>
      match deliverLogs channelOpen logs with
      | some sent =>
        { outcome := .advanced current_block,
          queries := [(fromBlock, toBlock)], sent := sent }
      | none =>
        { outcome := .stopped,
          queries := [(fromBlock, toBlock)], sent := [] }
    | .error _ =>
      { outcome := .advanced current_block,
        queries := [(fromBlock, toBlock)], sent := [] }
  else
    { outcome := .advanced last_block, queries := [], sent := [] }

/-! ## Concrete fixtures used by witnesses and counterexamples -/

/-- A testnet orchestrator. -/
def oTest : IntentOrchestrator := IntentOrchestrator.new .BaseSepolia

/-- An intent-created event with a parseable usdc_amount. -/
def evTest : IntentCreatedEvent :=
  { intent_id := "0xabc"
    user := "0xuser"
    sui_destination := "0xsuidest"
    input_token := "0xtok"
    input_amount := "2000000"
    usdc_amount := "1500000"
    strategy_id := 1
    timestamp := 1700000000 }

/-- A fresh Pending SuiToEvm intent with a parseable usdc_amount. -/
def iTest : Intent :=
  { id := "intent-1"
    direction := .SuiToEvm
    status := .Pending
    source_address := "0xsrc"
    dest_address := "0xdst"
    evm_chain := .BaseSepolia
    input_token := "USDC"
    input_amount := "1000000"
    usdc_amount := some "1000000"
    strategy := none
    bridge_nonce := none
    swap_tx_hash := none
    bridge_tx_hash := none
    dest_tx_hash := none
    error_message := none
    created_at := 0 }

/-- An intent whose usdc_amount is the string zero. -/
def iZero : Intent := { iTest with id := "intent-0", usdc_amount := some "0" }

/-- An attestation service that always answers not-found. -/
def httpNotFound : Nat → String → Except String HttpResponse :=
  fun _ _ => .ok { status_code := 404, body_text := "", body_json := .error "no body" }

/-- A single not-found HTTP response. -/
def respNotFound : HttpResponse :=
  { status_code := 404, body_text := "", body_json := .error "no body" }

/-- An HTTP environment answering not-found to every URL. -/
def httpW : String → Except String HttpResponse := fun _ => .ok respNotFound

/-- A log query environment that always returns no logs. -/
def getLogsEmpty : Nat → Nat → Except String (List (Option IntentCreatedEvent)) :=
  fun _ _ => .ok []

end Naisu

namespace Naisu

/-! ## C9: strategy id codec -/

/-- C9: YieldStrategy construction from a numeric id is total: for
every 8-bit id, from_id maps 1-4 to the named variants and every other
id to the Custom fallback, and from_id(id).id() = id. -/
theorem strategy_from_id_total_roundtrip (n : Nat) (h : n < 256) :
    (YieldStrategy.from_id n).id = n ∧
    (n = 1 → YieldStrategy.from_id n = .ScallopUsdc) ∧
    (n = 2 → YieldStrategy.from_id n = .ScallopSui) ∧
    (n = 3 → YieldStrategy.from_id n = .NaviUsdc) ∧
    (n = 4 → YieldStrategy.from_id n = .NaviSui) ∧
    (n ≠ 1 → n ≠ 2 → n ≠ 3 → n ≠ 4 → YieldStrategy.from_id n = .Custom n) := by
  unfold YieldStrategy.from_id
  split_ifs with h1 h2 h3 h4 <;> simp_all [YieldStrategy.id]

/-- Witness for C9 at id 7. -/
theorem strategy_from_id_total_roundtrip_witness :
    (YieldStrategy.from_id 7).id = 7 ∧ YieldStrategy.from_id 7 = .Custom 7 :=
  ⟨(strategy_from_id_total_roundtrip 7 (by decide)).1,
   (strategy_from_id_total_roundtrip 7 (by decide)).2.2.2.2.2
     (by decide) (by decide) (by decide) (by decide)⟩

/-! ## C6: depositForBurn parameter build -/

/-- C6: build_deposit_for_burn_params is a pure total function whose
result carries exactly the given amount, destination domain and
destination address, together with the configured TokenMessenger and
USDC contract addresses. -/
theorem build_deposit_for_burn_exact (c : CctpClient)
    (amount dest_domain : Nat) (dest_address : String)
    (h : amount < 2 ^ 64) :
    (c.build_deposit_for_burn_params amount dest_domain dest_address).amount = amount ∧
    (c.build_deposit_for_burn_params amount dest_domain dest_address).destination_domain = dest_domain ∧
    (c.build_deposit_for_burn_params amount dest_domain dest_address).destination_address = dest_address ∧
    (c.build_deposit_for_burn_params amount dest_domain dest_address).token_messenger = TOKEN_MESSENGER_BASE_SEPOLIA ∧
    (c.build_deposit_for_burn_params amount dest_domain dest_address).usdc_address = USDC_BASE_SEPOLIA := by
  simp [CctpClient.build_deposit_for_burn_params]

/-- Witness for C6 at the spec's example input. -/
theorem build_deposit_for_burn_exact_witness :
    (CctpClient.testnetClient.build_deposit_for_burn_params 1500000 10 "0xabc").amount = 1500000 ∧
    (CctpClient.testnetClient.build_deposit_for_burn_params 1500000 10 "0xabc").destination_domain = 10 ∧
    (CctpClient.testnetClient.build_deposit_for_burn_params 1500000 10 "0xabc").destination_address = "0xabc" :=
  ⟨(build_deposit_for_burn_exact CctpClient.testnetClient 1500000 10 "0xabc" (by norm_num)).1,
   (build_deposit_for_burn_exact CctpClient.testnetClient 1500000 10 "0xabc" (by norm_num)).2.1,
   (build_deposit_for_burn_exact CctpClient.testnetClient 1500000 10 "0xabc" (by norm_num)).2.2.1⟩

/-! ## C10: testnet and mainnet clients build identical parameters -/

/-- C10: whether the client was built by testnet() or mainnet(), the
depositForBurn parameters carry the Base Sepolia TokenMessenger and
USDC addresses and are identical between the two clients; the two
construction modes influence get_attestation only through the
attestation URL. -/
theorem mainnet_builds_testnet_addresses (amount dest_domain : Nat)
    (dest_address : String) :
    (CctpClient.testnetClient.build_deposit_for_burn_params amount dest_domain dest_address).token_messenger = TOKEN_MESSENGER_BASE_SEPOLIA ∧
    (CctpClient.testnetClient.build_deposit_for_burn_params amount dest_domain dest_address).usdc_address = USDC_BASE_SEPOLIA ∧
    (CctpClient.mainnetClient.build_deposit_for_burn_params amount dest_domain dest_address).token_messenger = TOKEN_MESSENGER_BASE_SEPOLIA ∧
    (CctpClient.mainnetClient.build_deposit_for_burn_params amount dest_domain dest_address).usdc_address = USDC_BASE_SEPOLIA ∧
    CctpClient.testnetClient.build_deposit_for_burn_params amount dest_domain dest_address =
      CctpClient.mainnetClient.build_deposit_for_burn_params amount dest_domain dest_address ∧
    (∀ c c' : CctpClient, ∀ http nonce,
      c.attestation_url = c'.attestation_url →
      c.get_attestation http nonce = c'.get_attestation http nonce) := by
  refine ⟨rfl, rfl, rfl, rfl, rfl, ?_⟩
  intro c c' http nonce h
  unfold CctpClient.get_attestation
  rw [h]

/-- Witness for C10 at a concrete request. -/
theorem mainnet_builds_testnet_addresses_witness :
    (CctpClient.mainnetClient.build_deposit_for_burn_params 1500000 10 "0xabc").token_messenger = TOKEN_MESSENGER_BASE_SEPOLIA :=
  (mainnet_builds_testnet_addresses 1500000 10 "0xabc").2.2.1

/-! ## C4: get_attestation response handling -/

/-- C4: with the service's response in hand, get_attestation returns
an empty result on not-found, a hard Api error on any other non-success
status, and on a success status a populated attestation exactly when
the parsed body reports status "complete" (any other status, or absent
data, yields the empty result). -/
theorem get_attestation_response_cases (c : CctpClient)
    (http : String → Except String HttpResponse) (nonce : String)
    (r : HttpResponse)
    (h : http (c.attestation_url ++ "/attestations/" ++ nonce) = .ok r) :
    (r.status_code = 404 → c.get_attestation http nonce = .ok none) ∧
    (r.status_code ≠ 404 → isSuccessStatus r.status_code = false →
      c.get_attestation http nonce = .error (.Api r.status_code r.body_text)) ∧
    (∀ resp, isSuccessStatus r.status_code = true → r.body_json = .ok resp →
      ((∃ a, c.get_attestation http nonce = .ok (some a)) ↔
        ∃ d, resp.data = some d ∧ d.status = "complete") ∧
      (∀ d, resp.data = some d → d.status ≠ "complete" →
        c.get_attestation http nonce = .ok none) ∧
      (resp.data = none → c.get_attestation http nonce = .ok none)) := by
  simp only [CctpClient.get_attestation, h]
  refine ⟨?_, ?_, ?_⟩
  · intro h404
    simp [h404]
  · intro h404 hfail
    simp [h404, hfail]
  · intro resp hsucc hjson
    have h404 : r.status_code ≠ 404 := by
      intro hc
      rw [hc] at hsucc
      simp [isSuccessStatus] at hsucc
    cases hd : resp.data with
    | none => simp [h404, hsucc, hjson, hd]
    | some d =>
      by_cases hst : d.status = "complete" <;>
        simp [h404, hsucc, hjson, hd, hst]

/-- Witness for C4: a not-found response yields the empty result. -/
theorem get_attestation_response_cases_witness :
    CctpClient.testnetClient.get_attestation httpW "nonce-1" = .ok none :=
  (get_attestation_response_cases CctpClient.testnetClient httpW "nonce-1"
    respNotFound rfl).1 rfl

/-! ## C5: poll_attestation retry discipline -/

/-- When every remaining attempt sees an empty attestation, the poll
loop times out and its trace is lookup, sleep repeated once per
attempt — the final empty lookup is also followed by a sleep. -/
theorem pollEvents_all_empty (c : CctpClient)
    (http : Nat → String → Except String HttpResponse) (nonce : String)
    (interval_secs : Nat) (n : Nat) :
    ∀ (k : Nat),
      (∀ j, j < n → c.get_attestation (http (k + j)) nonce = .ok none) →
      c.pollEvents http nonce interval_secs n k =
        (.error .AttestationTimeout,
         (List.replicate n
           [PollEvent.lookup nonce, PollEvent.sleep interval_secs]).flatten) := by
  induction n with
  | zero =>
    intro k _
    simp [CctpClient.pollEvents]
  | succ n ih =>
    intro k h
    have h0 := h 0 (Nat.succ_pos n)
    rw [Nat.add_zero] at h0
    have ihk := ih (k + 1) (fun j hj => by
      have hx := h (j + 1) (Nat.succ_lt_succ hj)
      rwa [show k + (j + 1) = k + 1 + j from by omega] at hx)
    simp [CctpClient.pollEvents, h0, ihk, List.replicate_succ]

/-- When the first non-empty attempt is attempt m (counting from the
current position k), the poll loop returns its attestation right after
the m + 1st lookup, with a sleep after each of the m empty lookups and
none after the last. -/
theorem pollEvents_first_ready (c : CctpClient)
    (http : Nat → String → Except String HttpResponse) (nonce : String)
    (interval_secs : Nat) (a : CctpAttestation) (m : Nat) :
    ∀ (n k : Nat),
      (∀ j, j < m → c.get_attestation (http (k + j)) nonce = .ok none) →
      c.get_attestation (http (k + m)) nonce = .ok (some a) →
      m < n →
      c.pollEvents http nonce interval_secs n k =
        (.ok a,
         (List.replicate m
           [PollEvent.lookup nonce, PollEvent.sleep interval_secs]).flatten
           ++ [PollEvent.lookup nonce]) := by
  induction m with
  | zero =>
    intro n k hnone hsome hlt
    cases n with
    | zero => omega
    | succ n =>
      rw [Nat.add_zero] at hsome
      simp [CctpClient.pollEvents, hsome]
  | succ m ih =>
    intro n k hnone hsome hlt
    cases n with
    | zero => omega
    | succ n =>
      have h0 := hnone 0 (Nat.succ_pos m)
      rw [Nat.add_zero] at h0
      have ihk := ih n (k + 1)
        (fun j hj => by
          have hx := hnone (j + 1) (Nat.succ_lt_succ hj)
          rwa [show k + (j + 1) = k + 1 + j from by omega] at hx)
        (by rwa [show k + 1 + m = k + (m + 1) from by omega])
        (Nat.lt_of_succ_lt_succ hlt)
      simp [CctpClient.pollEvents, h0, ihk, List.replicate_succ]

/-- Whatever the attestation service answers, the first event of a
poll with at least one attempt is an immediate lookup. -/
theorem pollEvents_head_lookup (c : CctpClient)
    (http : Nat → String → Except String HttpResponse) (nonce : String)
    (interval_secs n k : Nat) (h : 1 ≤ n) :
    ((c.pollEvents http nonce interval_secs n k).2).head? =
      some (.lookup nonce) := by
  cases n with
  | zero => omega
  | succ n =>
    cases hx : c.get_attestation (http k) nonce with
    | error e => simp [CctpClient.pollEvents, hx]
    | ok o => cases o <;> simp [CctpClient.pollEvents, hx]

/-- Counterexample to C5 as stated: against a service that always
answers not-found, poll_attestation with 3 attempts and interval 5
performs 3 lookups but also 3 sleeps, and its last event is a sleep.
Under the claim the interval sleep occurs only before a subsequent
attempt, which allows at most 2 sleeps and forces the trace to end
with a lookup; the code sleeps once more after the final empty attempt
before returning AttestationTimeout. -/
theorem poll_attestation_trailing_sleep_cex :
    (CctpClient.testnetClient.poll_attestation httpNotFound "nonce" 3 5).1 =
      .error .AttestationTimeout ∧
    (CctpClient.testnetClient.poll_attestation httpNotFound "nonce" 3 5).2.countP
      PollEvent.isLookup = 3 ∧
    (CctpClient.testnetClient.poll_attestation httpNotFound "nonce" 3 5).2.countP
      PollEvent.isSleep = 3 ∧
    (CctpClient.testnetClient.poll_attestation httpNotFound "nonce" 3 5).2.getLast? =
      some (.sleep 5) :=
  ⟨rfl, by decide, by decide, by decide⟩

/-- C5 as amended: poll_attestation performs a fixed-interval bounded
retry in which the first lookup is immediate, a non-empty result at
attempt m returns at once after m + 1 lookups with m sleeps and no
trailing sleep, and when all max_attempts attempts are empty it fails
with AttestationTimeout after exactly max_attempts lookups — but with a
sleep after every empty lookup, including one after the final attempt
(max_attempts sleeps, not max_attempts - 1). -/
theorem poll_attestation_fixed_interval_retry (c : CctpClient)
    (http : Nat → String → Except String HttpResponse) (nonce : String)
    (max_attempts interval_secs : Nat) :
    (1 ≤ max_attempts →
      (c.poll_attestation http nonce max_attempts interval_secs).2.head? =
        some (.lookup nonce)) ∧
    (∀ m a, m < max_attempts →
      (∀ j, j < m → c.get_attestation (http j) nonce = .ok none) →
      c.get_attestation (http m) nonce = .ok (some a) →
      c.poll_attestation http nonce max_attempts interval_secs =
        (.ok a,
         (List.replicate m
           [PollEvent.lookup nonce, PollEvent.sleep interval_secs]).flatten
           ++ [PollEvent.lookup nonce])) ∧
    ((∀ j, j < max_attempts → c.get_attestation (http j) nonce = .ok none) →
      c.poll_attestation http nonce max_attempts interval_secs =
        (.error .AttestationTimeout,
         (List.replicate max_attempts
           [PollEvent.lookup nonce, PollEvent.sleep interval_secs]).flatten)) := by
  refine ⟨?_, ?_, ?_⟩
  · intro h
    exact pollEvents_head_lookup c http nonce interval_secs max_attempts 0 h
  · intro m a hlt hnone hsome
    have hx := pollEvents_first_ready c http nonce interval_secs a m
      max_attempts 0
      (fun j hj => by simpa using hnone j hj)
      (by simpa using hsome) hlt
    simpa [CctpClient.poll_attestation] using hx
  · intro h
    have hx := pollEvents_all_empty c http nonce interval_secs max_attempts 0
      (fun j hj => by simpa using h j hj)
    simpa [CctpClient.poll_attestation] using hx

/-- Witness for amended C5 at the spec's example: 3 attempts, zero
interval, service always not-found. -/
theorem poll_attestation_fixed_interval_retry_witness :
    CctpClient.testnetClient.poll_attestation httpNotFound "nonce" 3 0 =
      (.error .AttestationTimeout,
       (List.replicate 3 [PollEvent.lookup "nonce", PollEvent.sleep 0]).flatten) :=
  (poll_attestation_fixed_interval_retry CctpClient.testnetClient httpNotFound
    "nonce" 3 0).2.2 (fun _ _ => rfl)

/-! ## C3: invalid amount on the Sui to EVM path -/

/-- C3: when usdc_amount is absent, unparsable as a u64, or parses to
zero, process_sui_to_evm fails with InvalidAmount at once: the intent
comes back entirely unchanged, no depositForBurn parameters are built
and no later step executes (the action trace is empty). -/
theorem sui_to_evm_invalid_amount (o : IntentOrchestrator) (intent : Intent)
    (h : intent.usdc_amount = none ∨
      ∃ s, intent.usdc_amount = some s ∧
        (parseU64 s = none ∨ parseU64 s = some 0)) :
    o.process_sui_to_evm intent =
      (.error (.InvalidAmount "0"), intent, []) := by
  have h0 : (intent.usdc_amount.bind parseU64).getD 0 = 0 := by
    rcases h with h | ⟨s, hs, h⟩
    · simp [h]
    · rcases h with h | h <;> simp [hs, h]
  simp [IntentOrchestrator.process_sui_to_evm, h0]

/-- Witness for C3: usdc_amount "0" errors and leaves the intent
untouched. -/
theorem sui_to_evm_invalid_amount_witness :
    oTest.process_sui_to_evm iZero = (.error (.InvalidAmount "0"), iZero, []) :=
  sui_to_evm_invalid_amount oTest iZero
    (.inr ⟨"0", rfl, .inr (by decide)⟩)

/-! ## C2: attestation resolution on the EVM to Sui path -/

/-- Counterexample to C2 as stated: on a processable event the
orchestrator records the mock bridge nonce, sets Bridging and then sets
BridgeCompleted, yet the trace contains no attestation interaction with
the bridge protocol client at all (the delegation to poll_attestation
is commented out in the source and replaced by a simulation). -/
theorem evm_to_sui_no_attestation_cex :
    (OrchEvent.statusSet .Bridging) ∈ (oTest.process_evm_to_sui evTest 0).2 ∧
    (OrchEvent.statusSet .BridgeCompleted) ∈ (oTest.process_evm_to_sui evTest 0).2 ∧
    ((oTest.process_evm_to_sui evTest 0).1.toOption.map Intent.bridge_nonce) =
      some (some "mock_nonce_0xabc") ∧
    (oTest.process_evm_to_sui evTest 0).2.countP OrchEvent.isPolledAttestation = 0 :=
  ⟨by decide, by decide, by decide, by decide⟩

/-- C2 as amended: after recording the (simulated) bridge nonce and
setting Bridging, process_evm_to_sui sets BridgeCompleted directly;
the attestation resolution is simulated in this code path and no
attestation call is delegated to the bridge protocol client. -/
theorem evm_to_sui_simulated_attestation (o : IntentOrchestrator)
    (event : IntentCreatedEvent) (now : Int) (n : Nat)
    (h : parseU64 event.usdc_amount = some n) :
    (o.process_evm_to_sui event now).2 =
      [.statusSet .SwapCompleted,
       .builtDepositForBurn (o.cctp.build_deposit_for_burn_params n
         CCTP_DOMAIN_SUI event.sui_destination),
       .statusSet .Bridging, .statusSet .BridgeCompleted,
       .statusSet .Deposited, .statusSet .Completed] ∧
    ((o.process_evm_to_sui event now).1.toOption.map Intent.bridge_nonce) =
      some (some ("mock_nonce_" ++ event.intent_id)) ∧
    (o.process_evm_to_sui event now).2.countP OrchEvent.isPolledAttestation = 0 := by
  refine ⟨?_, ?_, ?_⟩ <;>
    simp [IntentOrchestrator.process_evm_to_sui, h, Intent.new_evm_to_sui,
      Intent.set_status, Except.toOption, OrchEvent.isPolledAttestation,
      List.countP_cons]

/-- Witness for amended C2 at a concrete event. -/
theorem evm_to_sui_simulated_attestation_witness :
    (oTest.process_evm_to_sui evTest 0).2.countP OrchEvent.isPolledAttestation = 0 :=
  (evm_to_sui_simulated_attestation oTest evTest 0 1500000 (by decide)).2.2

/-! ## C1: status transition discipline -/

/-- Counterexample to C1 as stated: process_sui_to_evm never inspects
the intent's current status.  Applied twice to a fresh Pending intent,
the first call leaves the intent in the terminal state Completed, and
the second call still assigns Bridging, BridgeCompleted and Completed â
transitioning out of Completed â so the combined status path is not a
prefix of any valid walk of the section 4.3 table. -/
theorem intent_status_walk_cex :
    (oTest.process_sui_to_evm iTest).2.1.status = .Completed ∧
    IntentStatus.isTerminal (oTest.process_sui_to_evm iTest).2.1.status = true ∧
    statusesOf (oTest.process_sui_to_evm
      ((oTest.process_sui_to_evm iTest).2.1)).2.2 ≠ [] ∧
    validPath ((iTest.status) ::
      statusesOf ((oTest.process_sui_to_evm iTest).2.2 ++
        (oTest.process_sui_to_evm ((oTest.process_sui_to_evm iTest).2.1)).2.2)) =
      false :=
  ⟨rfl, rfl, by decide, by decide⟩

/-- C1 as amended: a single invocation of each public operation on an
intent that is ready for it follows the section 4.3 table: the status
path of process_evm_to_sui from the fresh Pending intent is a prefix of
a valid walk on both the error and the success path, and the status
path of process_sui_to_evm applied to an intent in status Pending or
SwapCompleted is a valid forward walk that never visits and hence never
leaves a terminal state mid-path.  Without the restriction on the
incoming status the property fails (see the counterexample). -/
theorem intent_status_walk (o : IntentOrchestrator)
    (event : IntentCreatedEvent) (now : Int) (intent : Intent)
    (h : intent.status = .Pending ∨ intent.status = .SwapCompleted) :
    validPath (.Pending :: statusesOf (o.process_evm_to_sui event now).2) = true ∧
    validPath (intent.status :: statusesOf (o.process_sui_to_evm intent).2.2) = true := by
  constructor
  · cases hp : parseU64 event.usdc_amount <;>
      simp [IntentOrchestrator.process_evm_to_sui, hp, statusesOf, validPath,
        validTransition, IntentStatus.isTerminal]
  · by_cases h0 : (intent.usdc_amount.bind parseU64).getD 0 = 0 <;>
      rcases h with h | h <;>
        simp [IntentOrchestrator.process_sui_to_evm, h0, h, statusesOf,
          validPath, validTransition, IntentStatus.isTerminal]

/-- Witness for amended C1 at a concrete event and a fresh Pending
intent. -/
theorem intent_status_walk_witness :
    validPath (.Pending :: statusesOf (oTest.process_evm_to_sui evTest 0).2) = true ∧
    validPath (iTest.status :: statusesOf (oTest.process_sui_to_evm iTest).2.2) = true :=
  intent_status_walk oTest evTest 0 iTest (.inl rfl)

/-! ## C7: domain registry and routing -/

/-- C7: the CCTP domain registry is the fixed mapping Ethereum 0,
Avalanche 1, Optimism 2, Arbitrum 3, Base 5, Sui 10; the EVM to Sui
path builds depositForBurn parameters with destination domain 10 and
the intent's dest_address, and the Sui to EVM path builds them with
destination domain 5 and the intent's dest_address. -/
theorem domain_registry_routing (o : IntentOrchestrator)
    (event : IntentCreatedEvent) (now : Int) (intent : Intent) :
    (CCTP_DOMAIN_ETHEREUM = 0 ∧ CCTP_DOMAIN_AVALANCHE = 1 ∧
     CCTP_DOMAIN_OPTIMISM = 2 ∧ CCTP_DOMAIN_ARBITRUM = 3 ∧
     CCTP_DOMAIN_BASE = 5 ∧ CCTP_DOMAIN_SUI = 10) ∧
    (∀ n, parseU64 event.usdc_amount = some n →
      ∀ i, (o.process_evm_to_sui event now).1 = .ok i →
        OrchEvent.builtDepositForBurn
          (o.cctp.build_deposit_for_burn_params n CCTP_DOMAIN_SUI i.dest_address)
          ∈ (o.process_evm_to_sui event now).2 ∧
        (o.cctp.build_deposit_for_burn_params n CCTP_DOMAIN_SUI
          i.dest_address).destination_domain = 10 ∧
        (o.cctp.build_deposit_for_burn_params n CCTP_DOMAIN_SUI
          i.dest_address).destination_address = i.dest_address) ∧
    (∀ n, (intent.usdc_amount.bind parseU64).getD 0 = n → n ≠ 0 →
      OrchEvent.builtDepositForBurn
        (o.cctp.build_deposit_for_burn_params n CCTP_DOMAIN_BASE intent.dest_address)
        ∈ (o.process_sui_to_evm intent).2.2 ∧
      (o.cctp.build_deposit_for_burn_params n CCTP_DOMAIN_BASE
        intent.dest_address).destination_domain = 5 ∧
      (o.cctp.build_deposit_for_burn_params n CCTP_DOMAIN_BASE
        intent.dest_address).destination_address = intent.dest_address) := by
  refine ⟨⟨rfl, rfl, rfl, rfl, rfl, rfl⟩, ?_, ?_⟩
  · intro n hn i hi
    refine ⟨?_, rfl, rfl⟩
    simp [IntentOrchestrator.process_evm_to_sui, hn, Intent.new_evm_to_sui,
      Intent.set_status] at hi ⊢
    subst hi
    simp
  · intro n hn hne
    subst hn
    refine ⟨?_, rfl, rfl⟩
    simp [IntentOrchestrator.process_sui_to_evm, hne]

/-- Witness for C7: the Sui to EVM path routes to Base (domain 5). -/
theorem domain_registry_routing_witness :
    OrchEvent.builtDepositForBurn
      (oTest.cctp.build_deposit_for_burn_params 1000000 CCTP_DOMAIN_BASE
        iTest.dest_address)
      ∈ (oTest.process_sui_to_evm iTest).2.2 :=
  ((domain_registry_routing oTest evTest 0 iTest).2.2 1000000 (by decide)
    (by decide)).1

/-! ## C8: poll-mode block scan -/

/-- With the delivery channel open, the send loop never aborts. -/
theorem deliverLogs_open_ne_none (logs : List (Option IntentCreatedEvent)) :
    deliverLogs true logs ≠ none := by
  induction logs with
  | nil => simp [deliverLogs]
  | cons hd tl ih =>
    cases hd with
    | none => simpa [deliverLogs] using ih
    | some e => simp [deliverLogs, Option.map_eq_none']; exact ih

/-- C8: on a poll tick with current_block at or behind last_seen_block
no log query is issued and the state is unchanged; otherwise exactly
one query is issued over blocks last_seen_block + 1 through
current_block, and (with the delivery channel open) last_seen_block
advances to current_block whatever the query returned. -/
theorem poll_tick_half_open_range
    (get_logs : Nat → Nat → Except String (List (Option IntentCreatedEvent)))
    (channelOpen : Bool) (last_block current_block : Nat) :
    (current_block ≤ last_block →
      pollTick get_logs channelOpen last_block current_block =
        { outcome := .advanced last_block, queries := [], sent := [] }) ∧
    (last_block < current_block →
      (pollTick get_logs channelOpen last_block current_block).queries =
        [(last_block + 1, current_block)] ∧
      (channelOpen = true →
        (pollTick get_logs channelOpen last_block current_block).outcome =
          .advanced current_block)) := by
  constructor
  · intro h
    simp [pollTick, Nat.not_lt.mpr h]
  · intro h
    constructor
    · cases hq : get_logs (last_block + 1) current_block with
      | error e => simp [pollTick, h, hq]
      | ok logs =>
        cases hd : deliverLogs channelOpen logs with
        | none => simp [pollTick, h, hq, hd]
        | some sent => simp [pollTick, h, hq, hd]
    · intro hc
      subst hc
      cases hq : get_logs (last_block + 1) current_block with
      | error e => simp [pollTick, h, hq]
      | ok logs =>
        cases hd : deliverLogs true logs with
        | none => exact absurd hd (deliverLogs_open_ne_none logs)
        | some sent => simp [pollTick, h, hq, hd]

/-- Witness for C8: an equal-block tick issues no query; a two-block
advance queries exactly the half-open range. -/
theorem poll_tick_half_open_range_witness :
    pollTick getLogsEmpty true 7 7 =
      { outcome := .advanced 7, queries := [], sent := [] } ∧
    (pollTick getLogsEmpty true 7 9).queries = [(8, 9)] :=
  ⟨(poll_tick_half_open_range getLogsEmpty true 7 7).1 (by omega),
   ((poll_tick_half_open_range getLogsEmpty true 7 9).2 (by omega)).1⟩

end Naisu
